import Mathlib

/- Shallow embedding of the resilient remote-invocation layer of the RaAI
wellness application:
* the Transport helper `ApiClient.request` and the per-capability fallback
  methods of `ApiClient` (src/frontend/lib/api.ts);
* the Gemini helper `generateText` (the second document in
  src/frontend/lib/api.ts);
* the retrying, failing-over Gemini invoker `callGeminiWithRetry`
  (src/frontend/app/api/rewrite/route.ts).
JavaScript numbers are modelled as exact rationals, JSON object payloads as a
small inductive of JSON values, and thrown JavaScript errors as `Except`
error results carrying the error message. -/

set_option autoImplicit false

namespace RaAI

/-- Whether `pat` is a prefix of `cs` (character lists). -/
def charsStartWith : List Char → List Char → Bool
  | _, [] => true
  | [], _ :: _ => false
  | c :: cs, p :: ps => c == p && charsStartWith cs ps

/-- Whether `pat` occurs as a contiguous run inside `cs`. -/
def charsContain : List Char → List Char → Bool
  | [], pat => pat.isEmpty
  | c :: cs, pat => charsStartWith (c :: cs) pat || charsContain cs pat

/-- JS substring test `s.includes(pat)`: true iff `pat` occurs as a
substring of `s`. -/
def strContains (s pat : String) : Bool := charsContain s.data pat.data

/-- JS `s.toLowerCase()` (the source only feeds it ASCII text and
lexicons). -/
def jsToLower (s : String) : String := ⟨s.data.map Char.toLower⟩

/-- JS `v || dflt` applied to an optional string field: `undefined` and the
empty string are falsy, any other string is returned as is. -/
def jsOr (s : Option String) (dflt : String) : String :=
  match s with
  | some m => if m = "" then dflt else m
  | none => dflt

/-- JS `String(v)` of an optional string, as interpolated by a template
literal: `undefined` prints as "undefined". -/
def jsShow (s : Option String) : String :=
  match s with
  | some m => m
  | none => "undefined"

/-- `response.ok` of the fetch API: HTTP status in 200..299. -/
def respOk (status : Nat) : Bool := decide (200 ≤ status ∧ status ≤ 299)

/-- JS `Math.round`: round half toward positive infinity. -/
def jsRound (q : ℚ) : ℤ := ⌊q + 1/2⌋

/-! ## Transport: `ApiClient.request` (src/frontend/lib/api.ts lines 28-67) -/

/-- Raw outcome of the underlying `fetch` call plus JSON body parse inside
`ApiClient.request`: either a response arrived (with its HTTP status, the
`detail` string field of the parsed error body when the body parses and has
one, and the parsed payload used on the success path), or the fetch
primitive threw an exception (`isTypeError` records whether it was a
`TypeError`, `msg` its message). -/
inductive FetchOutcome (α : Type) where
  | response (status : Nat) (detail : Option String) (payload : α)
  | fetchThrow (isTypeError : Bool) (msg : String)

/-- `ApiClient.request`: on a non-ok status it throws an error whose message
is the error body's `detail` field when present (JS `||`, so an empty
`detail` also falls back) and otherwise "API request failed: {status}"; that
thrown error is not a `TypeError`, so its own catch block rethrows it
unchanged.  A `TypeError` with message "Failed to fetch" is reclassified
into the fixed cannot-connect message; any other exception is rethrown as
is.  On an ok status the parsed payload is returned. -/
def request {α : Type} (outcome : FetchOutcome α) : Except String α :=
  match outcome with
  | .response status detail payload =>
    if respOk status then .ok payload
    else .error (jsOr detail ("API request failed: " ++ toString status))
  | .fetchThrow isTypeError msg =>
    if isTypeError && msg == "Failed to fetch" then
      .error "Cannot connect to backend server. Please check if the backend is running."
    else .error msg

/-! ## JSON values for the fallback payloads built by `ApiClient` -/

/-- Structured JSON value, used to model the object literals the fallback
branches of `ApiClient` return. -/
inductive JsVal where
  | num (q : ℚ)
  | str (s : String)
  | bool (b : Bool)
  | arr (elems : List JsVal)
  | obj (fields : List (String × JsVal))

/-- Field lookup on a modelled JSON object; `none` on non-objects and on
absent keys. -/
def jsField (v : JsVal) (key : String) : Option JsVal :=
  match v with
  | .obj fields => fields.lookup key
  | _ => none

/-- Whether a fallback payload carries the offline/degraded marker the spec
describes: a field `offline: true`, or (for the health probe) a field
`status: "offline"`. -/
def hasOfflineMarker (v : JsVal) : Bool :=
  (match jsField v "offline" with
   | some (.bool true) => true
   | _ => false) ||
  (match jsField v "status" with
   | some (.str s) => s == "offline"
   | _ => false)

/-! ## Fallback computations of `ApiClient` (src/frontend/lib/api.ts) -/

/-- One emotion tag of the fallback journal analysis. -/
structure Emotion where
  label : String
  score : ℚ
deriving DecidableEq

/-- `ApiClient.analyzeFallbackEmotions` (lines 153-175): four keyword checks
on the lowercased text, each pushing one fixed-confidence tag; if none
matched, a single "Reflection" tag. -/
def analyzeFallbackEmotions (text : String) : List Emotion :=
  let lowerText := jsToLower text
  let emotions : List Emotion :=
    (if strContains lowerText "happy" || strContains lowerText "joy" ||
        strContains lowerText "good" then [⟨"Joy", 0.7⟩] else []) ++
    (if strContains lowerText "sad" || strContains lowerText "down" ||
        strContains lowerText "upset" then [⟨"Sadness", 0.6⟩] else []) ++
    (if strContains lowerText "angry" || strContains lowerText "mad" ||
        strContains lowerText "frustrated" then [⟨"Anger", 0.6⟩] else []) ++
    (if strContains lowerText "worried" || strContains lowerText "anxious" ||
        strContains lowerText "nervous" then [⟨"Anxiety", 0.6⟩] else [])
  if emotions.length == 0 then [⟨"Reflection", 0.5⟩] else emotions

/-- The positive lexicon of `ApiClient.calculateFallbackSentiment`. -/
def positiveWords : List String :=
  ["good", "great", "happy", "love", "amazing", "wonderful", "excellent", "fantastic"]

/-- The negative lexicon of `ApiClient.calculateFallbackSentiment`. -/
def negativeWords : List String :=
  ["bad", "terrible", "hate", "awful", "horrible", "worst", "sad", "angry"]

/-- Drops the empty strings a character-wise whitespace split produces inside
a run of whitespace, keeping the final element even when empty (helper for
`jsSplitWs`). -/
def dropInteriorEmpty : List String → List String
  | [] => []
  | [t] => [t]
  | t :: rest => if t = "" then dropInteriorEmpty rest else t :: dropInteriorEmpty rest

/-- Splits a character list at every character satisfying `p`, keeping the
(possibly empty) chunks between the split points; never returns `[]`. -/
def splitChars (p : Char → Bool) : List Char → List (List Char)
  | [] => [[]]
  | c :: cs =>
    if p c then [] :: splitChars p cs
    else
      match splitChars p cs with
      | t :: ts => (c :: t) :: ts
      | [] => [[c]]

/-- JS `s.split(/\s+/)`: splits on runs of whitespace; a leading or trailing
run contributes an empty token, interior runs do not, and the empty string
splits to `[""]`.  Implemented by splitting at each whitespace character
(which turns a run of k whitespace characters into k-1 empty tokens plus
its boundaries) and dropping the interior empty tokens. -/
def jsSplitWs (s : String) : List String :=
  match (splitChars (fun c => c.isWhitespace) s.data).map (fun cs => String.mk cs) with
  | [] => [""]
  | t :: rest => t :: dropInteriorEmpty rest

/-- The per-word step of `calculateFallbackSentiment`: +1 if the word
contains a positive-lexicon substring, -1 if it contains a
negative-lexicon substring (both can fire on one word). -/
def sentimentStep (score : ℤ) (word : String) : ℤ :=
  let score := if positiveWords.any (fun pos => strContains word pos) then score + 1 else score
  if negativeWords.any (fun neg => strContains word neg) then score - 1 else score

/-- `ApiClient.calculateFallbackSentiment` (lines 178-191): signed keyword
count over the whitespace tokens of the lowercased text, normalized by
`max(words.length / 10, 1)` and clamped to [-1, 1]. -/
def calculateFallbackSentiment (text : String) : ℚ :=
  let words := jsSplitWs (jsToLower text)
  let score : ℤ := words.foldl sentimentStep 0
  max (-1) (min 1 ((score : ℚ) / max ((words.length : ℚ) / 10) 1))

/-- The numeric response values of a check-in submission after JS
`delete responses.user_id; delete responses.date`: the remaining values in
insertion order. -/
def checkInValues (data : List (String × ℚ)) : List ℚ :=
  (data.filter (fun kv => !(kv.1 == "user_id") && !(kv.1 == "date"))).map (·.2)

/-- The local mood-index computation of `ApiClient.submitCheckIn`
(lines 106-116): average the remaining response values, rescale by
`((avg - 1) / 4) * 100`, and round to two decimals via
`Math.round(x * 100) / 100`. -/
def checkInMoodIndex (data : List (String × ℚ)) : ℚ :=
  let values := checkInValues data
  let avgScore := values.foldl (· + ·) 0 / (values.length : ℚ)
  let moodIndex := ((avgScore - 1) / 4) * 100
  (jsRound (moodIndex * 100) : ℚ) / 100

/-! ## Capability methods of `ApiClient` -/

/-- Result of one `ApiClient` capability method: the backend payload
verbatim, or the locally computed substitute produced by the catch block. -/
inductive CapResult (α : Type) where
  | success (payload : α)
  | substitute (value : JsVal)

/-- The health-probe fallback `{ status: 'offline', error: <message> }`
(line 75). -/
def healthFallback (msg : String) : JsVal :=
  .obj [("status", .str "offline"), ("error", .str msg)]

/-- The hardcoded check-in question list (lines 85-93).  Note the returned
object has a single field `questions` and no offline/degraded marker. -/
def checkInQuestionsFallback : JsVal :=
  .obj [("questions", .arr [
    .obj [("id", .str "mood"), ("text", .str "How are you feeling today?"),
          ("scale", .str "1=Very Low, 5=Very High")],
    .obj [("id", .str "stress"), ("text", .str "How stressed did you feel today?"),
          ("scale", .str "1=Not at all, 5=Extremely")],
    .obj [("id", .str "energy"), ("text", .str "What's your energy level right now?"),
          ("scale", .str "1=Very Low, 5=Very High")],
    .obj [("id", .str "connection"), ("text", .str "How connected did you feel to others today?"),
          ("scale", .str "1=Not at all, 5=Very Connected")],
    .obj [("id", .str "motivation"), ("text", .str "How motivated did you feel today?"),
          ("scale", .str "1=Not at all, 5=Extremely")]])]

/-- The check-in submission fallback `{ mood_index, offline: true }`
(lines 115-118). -/
def checkInFallback (data : List (String × ℚ)) : JsVal :=
  .obj [("mood_index", .num (checkInMoodIndex data)), ("offline", .bool true)]

/-- One emotion tag as the JSON value pushed by the fallback analysis. -/
def emotionToJs (e : Emotion) : JsVal :=
  .obj [("label", .str e.label), ("score", .num e.score)]

/-- The journal-analysis fallback envelope (lines 131-148). -/
def journalFallback (journal : String) : JsVal :=
  .obj [("safety", .obj [("label", .str "SAFE")]),
        ("analysis", .obj [
          ("emotions", .arr ((analyzeFallbackEmotions journal).map emotionToJs)),
          ("sentiment", .num (calculateFallbackSentiment journal)),
          ("cognitive_distortions", .arr []),
          ("topics", .arr []),
          ("facet_signals", .obj [
            ("self_awareness", .str "0"), ("self_regulation", .str "0"),
            ("motivation", .str "0"), ("empathy", .str "0"),
            ("social_skills", .str "0")]),
          ("one_line_insight", .str "Continue reflecting on your experiences.")]),
        ("offline", .bool true)]

/-- The hardcoded baseline question list (lines 198-206); like the check-in
question fallback it has a single field `questions` and no marker. -/
def baselineQuestionsFallback : JsVal :=
  .obj [("questions", .arr [
    .obj [("qid", .str "SA1"), ("facet", .str "self_awareness"),
          ("text", .str "I can recognize my emotions as they arise.")],
    .obj [("qid", .str "SR1"), ("facet", .str "self_regulation"),
          ("text", .str "I can stay calm under pressure.")],
    .obj [("qid", .str "M1"), ("facet", .str "motivation"),
          ("text", .str "I persist even when tasks are difficult.")],
    .obj [("qid", .str "E1"), ("facet", .str "empathy"),
          ("text", .str "I understand others' feelings even if unspoken.")],
    .obj [("qid", .str "SS1"), ("facet", .str "social_skills"),
          ("text", .str "I handle disagreements constructively.")]])]

/-- The baseline-scoring fallback (lines 218-232). -/
def baselineFallback : JsVal :=
  .obj [("scores", .obj [
          ("self_awareness", .num 0.6), ("self_regulation", .num 0.5),
          ("motivation", .num 0.7), ("empathy", .num 0.6),
          ("social_skills", .num 0.5)]),
        ("strengths", .arr [.str "self_awareness"]),
        ("focus", .arr [.str "self_regulation", .str "social_skills"]),
        ("summary", .str "Baseline assessment completed offline."),
        ("offline", .bool true)]

/-- The text-rewrite fallback `{ rewrite: data.text, removed_terms: [],
offline: true }` (lines 243-247): the original text unchanged. -/
def rewriteFallback (text : String) : JsVal :=
  .obj [("rewrite", .str text), ("removed_terms", .arr []), ("offline", .bool true)]

/-- The mood-series fallback `{ series: [], offline: true }` (line 256). -/
def moodSeriesFallback : JsVal :=
  .obj [("series", .arr []), ("offline", .bool true)]

/-- The exercise fallback (lines 267-277). -/
def exerciseFallback : JsVal :=
  .obj [("exercise", .obj [
          ("exercise_id", .str "fallback_breathing"),
          ("title", .str "Simple Breathing Exercise"),
          ("steps", .arr [.str "Sit comfortably", .str "Breathe in for 4 counts",
            .str "Hold for 4 counts", .str "Breathe out for 4 counts",
            .str "Repeat 5 times"]),
          ("expected_outcome", .str "Feeling more calm and centered"),
          ("source_doc_id", .str "fallback"),
          ("followup_question", .str "How do you feel after this exercise?")]),
        ("offline", .bool true)]

/-- The safety-check fallback `{ label: 'SAFE', offline: true }` (line 288). -/
def safetyFallback : JsVal :=
  .obj [("label", .str "SAFE"), ("offline", .bool true)]

/-- `ApiClient.health`: the transport payload on success, the offline status
object on any transport failure. -/
def health {α : Type} (t : Except String α) : CapResult α :=
  match t with
  | .ok p => .success p
  | .error msg => .substitute (healthFallback msg)

/-- `ApiClient.getCheckInQuestions`: the payload, or the hardcoded question
list on any transport failure. -/
def getCheckInQuestions {α : Type} (t : Except String α) : CapResult α :=
  match t with
  | .ok p => .success p
  | .error _ => .substitute checkInQuestionsFallback

/-- `ApiClient.submitCheckIn`: the payload, or the locally computed mood
index (marked `offline: true`) on any transport failure. -/
def submitCheckIn {α : Type} (data : List (String × ℚ)) (t : Except String α) :
    CapResult α :=
  match t with
  | .ok p => .success p
  | .error _ => .substitute (checkInFallback data)

/-- `ApiClient.analyzeJournalEntry`: the payload, or the locally computed
analysis envelope on any transport failure. -/
def analyzeJournalEntry {α : Type} (journal : String) (t : Except String α) :
    CapResult α :=
  match t with
  | .ok p => .success p
  | .error _ => .substitute (journalFallback journal)

/-- `ApiClient.getBaselineQuestions`: the payload, or the hardcoded baseline
question list on any transport failure. -/
def getBaselineQuestions {α : Type} (t : Except String α) : CapResult α :=
  match t with
  | .ok p => .success p
  | .error _ => .substitute baselineQuestionsFallback

/-- `ApiClient.submitBaseline`: the payload, or the fixed baseline score
vector on any transport failure. -/
def submitBaseline {α : Type} (t : Except String α) : CapResult α :=
  match t with
  | .ok p => .success p
  | .error _ => .substitute baselineFallback

/-- `ApiClient.rewriteText`: the payload, or the original text unchanged on
any transport failure. -/
def rewriteText {α : Type} (text : String) (t : Except String α) : CapResult α :=
  match t with
  | .ok p => .success p
  | .error _ => .substitute (rewriteFallback text)

/-- `ApiClient.getMoodSeries`: the payload, or the empty series on any
transport failure. -/
def getMoodSeries {α : Type} (t : Except String α) : CapResult α :=
  match t with
  | .ok p => .success p
  | .error _ => .substitute moodSeriesFallback

/-- `ApiClient.getExercise`: the payload, or the fixed breathing exercise on
any transport failure. -/
def getExercise {α : Type} (t : Except String α) : CapResult α :=
  match t with
  | .ok p => .success p
  | .error _ => .substitute exerciseFallback

/-- `ApiClient.safetyCheck`: the payload, or the fixed SAFE label on any
transport failure. -/
def safetyCheck {α : Type} (t : Except String α) : CapResult α :=
  match t with
  | .ok p => .success p
  | .error _ => .substitute safetyFallback

/-! ## Gemini calls (src/frontend/lib/api.ts `generateText` and
src/frontend/app/api/rewrite/route.ts `callGeminiWithRetry`) -/

/-- The error body of a Gemini response (`data.error`); only its optional
`message` field is inspected by the source. -/
structure ErrBody where
  message : Option String
deriving DecidableEq

/-- Raw outcome of one `fetch` + `response.json()` against a Gemini target:
a parsed reply (status, optional `data.error` body, and the result of the
optional chain `data.candidates?.[0]?.content?.parts?.[0]?.text`), or a
thrown exception with its message. -/
inductive CallOutcome where
  | reply (status : Nat) (error : Option ErrBody) (text : Option String)
  | netFail (msg : String)
deriving DecidableEq

/-- `data.candidates?.[0]?.content?.parts?.[0]?.text || 'No response
generated'`. -/
def extractText (t : Option String) : String := jsOr t "No response generated"

/-- `data.error?.message?.includes('overloaded') || response.status === 503`. -/
def isOverload (status : Nat) (error : Option ErrBody) : Bool :=
  (match error with
   | some e =>
     match e.message with
     | some m => strContains m "overloaded"
     | none => false
   | none => false) || status == 503

/-- The message of the error thrown on a non-overload application error:
`data.error?.message || 'HTTP ${response.status}'`. -/
def throwMsg (status : Nat) (error : Option ErrBody) : String :=
  jsOr (error.bind (·.message)) ("HTTP " ++ toString status)

/-- `generateText` (src/frontend/lib/api.ts lines 332-373): one Gemini call;
every failure is rethrown wrapped as "Failed to generate text: ...", an ok
response without an error body yields the extracted text. -/
def generateText (outcome : CallOutcome) : Except String String :=
  match outcome with
  | .netFail msg => .error ("Failed to generate text: " ++ msg)
  | .reply status error text =>
    if respOk status then
      match error with
      | some e => .error ("Failed to generate text: " ++ "Gemini API error: " ++ jsShow e.message)
      | none => .ok (extractText text)
    else
      .error ("Failed to generate text: " ++ "HTTP error! status: " ++ toString status ++
        " - " ++ jsOr (error.bind (·.message)) "Unknown error")

/-- The value held by `lastError` in `callGeminiWithRetry`: either a stored
Gemini error body (`lastError = data.error`) or a caught exception with its
message. -/
inductive LastErr where
  | body (e : ErrBody)
  | exn (msg : String)
deriving DecidableEq

/-- One observable event of a `callGeminiWithRetry` run: a fetch against
model `modelIndex` at attempt number `attempt`, or a backoff sleep of `ms`
milliseconds. -/
inductive Ev where
  | call (modelIndex attempt : Nat)
  | sleep (ms : Nat)
deriving DecidableEq

/-- Outcome of the inner attempt loop for one model: an early `return` with
the extracted text, or the loop ended (retries exhausted / `break`). -/
inductive InnerOutcome where
  | success (text : String)
  | exhausted
deriving DecidableEq

/-- Result of the inner attempt loop: its outcome, the final value of the
`lastError` variable, and the trace of calls and sleeps it produced. -/
structure InnerResult where
  outcome : InnerOutcome
  lastError : Option LastErr
  trace : List Ev
deriving DecidableEq

/-- The list `[s, s+1, ..., s+n-1]`, modelling the index ranges of the two
`for` loops of `callGeminiWithRetry`. -/
def countUpFrom (s : Nat) : Nat → List Nat
  | 0 => []
  | n + 1 => s :: countUpFrom (s + 1) n

/-- The inner `for (attempt = 1; attempt <= maxRetries; attempt++)` loop of
`callGeminiWithRetry` (route.ts lines 14-68), over the listed attempt
numbers, with the provider outcome of model `modelIndex` at attempt `a`
given by `provider modelIndex a`.  Per attempt:
* ok response without an error body: `return` the extracted text;
* overload (error message contains "overloaded", or status 503): store
  `lastError = data.error`; if `attempt < maxRetries` sleep
  `2^attempt * 1000` ms and retry, else `break` out of the attempt loop;
* any other application error: `throw new Error(...)` — which is caught by
  the loop body's own `catch`, so it stores the exception in `lastError`,
  sleeps `1000 * attempt` ms when `attempt < maxRetries`, and continues
  with the next attempt;
* a thrown fetch/parse exception: caught identically. -/
def runAttempts (provider : Nat → Nat → CallOutcome) (maxRetries modelIndex : Nat) :
    List Nat → Option LastErr → InnerResult
  | [], lastError => ⟨.exhausted, lastError, []⟩
  | attempt :: rest, lastError =>
    match provider modelIndex attempt with
    | .reply status error text =>
      if respOk status && error.isNone then
        ⟨.success (extractText text), lastError, [.call modelIndex attempt]⟩
      else if isOverload status error then
        let lastError' := error.map .body
        if attempt < maxRetries then
          let r := runAttempts provider maxRetries modelIndex rest lastError'
          ⟨r.outcome, r.lastError, .call modelIndex attempt :: .sleep (2 ^ attempt * 1000) :: r.trace⟩
        else
          ⟨.exhausted, lastError', [.call modelIndex attempt]⟩
      else
        let lastError' := some (.exn (throwMsg status error))
        if attempt < maxRetries then
          let r := runAttempts provider maxRetries modelIndex rest lastError'
          ⟨r.outcome, r.lastError, .call modelIndex attempt :: .sleep (1000 * attempt) :: r.trace⟩
        else
          let r := runAttempts provider maxRetries modelIndex rest lastError'
          ⟨r.outcome, r.lastError, .call modelIndex attempt :: r.trace⟩
    | .netFail msg =>
      let lastError' := some (.exn msg)
      if attempt < maxRetries then
        let r := runAttempts provider maxRetries modelIndex rest lastError'
        ⟨r.outcome, r.lastError, .call modelIndex attempt :: .sleep (1000 * attempt) :: r.trace⟩
      else
        let r := runAttempts provider maxRetries modelIndex rest lastError'
        ⟨r.outcome, r.lastError, .call modelIndex attempt :: r.trace⟩

instance : DecidableEq (Except LastErr String) := fun
  | .ok a, .ok b =>
    match decEq a b with
    | isTrue h => isTrue (by rw [h])
    | isFalse h => isFalse (by intro hh; cases hh; exact h rfl)
  | .ok _, .error _ => isFalse (by intro h; cases h)
  | .error _, .ok _ => isFalse (by intro h; cases h)
  | .error a, .error b =>
    match decEq a b with
    | isTrue h => isTrue (by rw [h])
    | isFalse h => isFalse (by intro hh; cases hh; exact h rfl)

/-- Final result and trace of a `callGeminiWithRetry` invocation. -/
structure GeminiRun where
  result : Except LastErr String
  trace : List Ev
deriving DecidableEq

/-- The outer `for (modelIndex …)` loop of `callGeminiWithRetry`: runs the
attempt loop for each listed model, threading `lastError`; a success
returns immediately, and when every model is exhausted the function throws
`lastError || new Error('All models failed')`. -/
def runModels (provider : Nat → Nat → CallOutcome) (maxRetries : Nat) :
    List Nat → Option LastErr → GeminiRun
  | [], lastError => ⟨.error (lastError.getD (.exn "All models failed")), []⟩
  | mi :: rest, lastError =>
    let r := runAttempts provider maxRetries mi (countUpFrom 1 maxRetries) lastError
    match r.outcome with
    | .success t => ⟨.ok t, r.trace⟩
    | .exhausted =>
      let rr := runModels provider maxRetries rest r.lastError
      ⟨rr.result, r.trace ++ rr.trace⟩

/-- `callGeminiWithRetry` (route.ts lines 8-73) over `numModels` ordered
provider targets (the source configures two `GEMINI_MODELS`) with the given
`maxRetries` (source default 3). -/
def callGeminiWithRetry (provider : Nat → Nat → CallOutcome) (numModels maxRetries : Nat) :
    GeminiRun :=
  runModels provider maxRetries (countUpFrom 0 numModels) none

/-- Number of fetches in a trace. -/
def countCalls (t : List Ev) : Nat :=
  t.countP (fun e => match e with | .call _ _ => true | _ => false)

/-- The backoff sleeps of a trace, in order, in milliseconds. -/
def sleepsOf (t : List Ev) : List Nat :=
  t.filterMap (fun e => match e with | .sleep ms => some ms | _ => none)

/-- Expected trace of one model that reports overload on `n` consecutive
attempts starting at attempt `s`: a call, then (except after the final
attempt, where the loop breaks without sleeping) a `2^attempt * 1000` ms
sleep before the next call. -/
def overloadTrace (mi s : Nat) : Nat → List Ev
  | 0 => []
  | 1 => [.call mi s]
  | n + 2 => .call mi s :: .sleep (2 ^ s * 1000) :: overloadTrace mi (s + 1) (n + 1)

/-! ## Claim-side definitions and concrete scenarios -/

/-- Rounding to two decimal places via `Math.round(x * 100) / 100`. -/
def round2 (q : ℚ) : ℚ := (jsRound (q * 100) : ℚ) / 100

/-- The mood index as the spec phrases it: `((mean - 1) / 4) × 100`, rounded
to two decimal places. -/
def specMoodIndex (values : List ℚ) : ℚ :=
  round2 (((values.sum / (values.length : ℚ)) - 1) / 4 * 100)

/-- A provider that answers every call with HTTP 400 and a non-overload
error body. -/
def provBadRequest : Nat → Nat → CallOutcome :=
  fun _ _ => .reply 400 (some ⟨some "Bad request"⟩) none

/-- A provider whose every call reports the overload condition with an
explicit error body. -/
def provOverloaded : Nat → Nat → CallOutcome :=
  fun _ _ => .reply 503 (some ⟨some "The model is overloaded"⟩) none

/-- A provider whose first target always answers 503 and whose second
target succeeds immediately. -/
def provFailover : Nat → Nat → CallOutcome :=
  fun mi _ => if mi = 0 then .reply 503 none none else .reply 200 none (some "B response")

/-- A provider whose first call succeeds with a body carrying no
candidates / no text part. -/
def provNoCandidates : Nat → Nat → CallOutcome :=
  fun _ _ => .reply 200 none none

/-! ## Theorems -/

/-- C1 (counterexample): the claim says every capability's substitute is
Degraded/offline-marked, but the check-in and baseline question-set
substitutes (api.ts lines 85-93 and 198-206) are bare hardcoded question
lists whose objects contain only a `questions` field — no `offline`,
`degraded` or `status` marker — so on a forced network error the returned
substitute carries no offline marker. -/
theorem C1_counterexample :
    getCheckInQuestions (α := Unit)
        (.error "Cannot connect to backend server. Please check if the backend is running.") =
      .substitute checkInQuestionsFallback ∧
    hasOfflineMarker checkInQuestionsFallback = false ∧
    getBaselineQuestions (α := Unit)
        (.error "Cannot connect to backend server. Please check if the backend is running.") =
      .substitute baselineQuestionsFallback ∧
    hasOfflineMarker baselineQuestionsFallback = false :=
  ⟨rfl, rfl, rfl, rfl⟩

/-- C1 (amended): for every Transport outcome, each of the ten
FallbackEngine capability methods returns a structured result — the payload
verbatim on success and its capability-specific substitute on any transport
failure — and never propagates the failure; the substitutes of eight
capabilities carry an offline/degraded marker, while the two question-set
substitutes are bare hardcoded question lists without a marker. -/
theorem C1_amended :
    ∀ (α : Type) (p : α) (e : String) (data : List (String × ℚ)) (j tx : String),
    health (.ok p) = .success p ∧
    health (α := α) (.error e) = .substitute (healthFallback e) ∧
    hasOfflineMarker (healthFallback e) = true ∧
    getCheckInQuestions (.ok p) = .success p ∧
    getCheckInQuestions (α := α) (.error e) = .substitute checkInQuestionsFallback ∧
    submitCheckIn data (.ok p) = .success p ∧
    submitCheckIn (α := α) data (.error e) = .substitute (checkInFallback data) ∧
    hasOfflineMarker (checkInFallback data) = true ∧
    analyzeJournalEntry j (.ok p) = .success p ∧
    analyzeJournalEntry (α := α) j (.error e) = .substitute (journalFallback j) ∧
    hasOfflineMarker (journalFallback j) = true ∧
    getBaselineQuestions (.ok p) = .success p ∧
    getBaselineQuestions (α := α) (.error e) = .substitute baselineQuestionsFallback ∧
    submitBaseline (.ok p) = .success p ∧
    submitBaseline (α := α) (.error e) = .substitute baselineFallback ∧
    hasOfflineMarker baselineFallback = true ∧
    rewriteText tx (.ok p) = .success p ∧
    rewriteText (α := α) tx (.error e) = .substitute (rewriteFallback tx) ∧
    hasOfflineMarker (rewriteFallback tx) = true ∧
    getMoodSeries (.ok p) = .success p ∧
    getMoodSeries (α := α) (.error e) = .substitute moodSeriesFallback ∧
    hasOfflineMarker moodSeriesFallback = true ∧
    getExercise (.ok p) = .success p ∧
    getExercise (α := α) (.error e) = .substitute exerciseFallback ∧
    hasOfflineMarker exerciseFallback = true ∧
    safetyCheck (.ok p) = .success p ∧
    safetyCheck (α := α) (.error e) = .substitute safetyFallback ∧
    hasOfflineMarker safetyFallback = true :=
  fun _ _ _ _ _ _ =>
    ⟨rfl, rfl, rfl, rfl, rfl, rfl, rfl, rfl, rfl, rfl, rfl, rfl, rfl, rfl,
     rfl, rfl, rfl, rfl, rfl, rfl, rfl, rfl, rfl, rfl, rfl, rfl, rfl, rfl⟩

/-- C2 (code behavior at the failing input): the claim — and the source's
own comment "For other errors, throw immediately" — say a non-overload
application error on attempt 1 of target 1 terminates the invocation at
once with no retry and no attempt on the second target.  The `throw` at
route.ts line 57, however, sits inside the loop body's `try`, so its own
`catch` swallows it: with two targets, maxRetries 3 and a provider that
always answers HTTP 400 "Bad request", the code makes six attempts
(including attempts against the second target, with linear backoff sleeps)
before finally raising the last error. -/
theorem C2_code_behavior :
    (callGeminiWithRetry provBadRequest 2 3).trace =
      [.call 0 1, .sleep 1000, .call 0 2, .sleep 2000, .call 0 3,
       .call 1 1, .sleep 1000, .call 1 2, .sleep 2000, .call 1 3] ∧
    countCalls (callGeminiWithRetry provBadRequest 2 3).trace = 6 ∧
    Ev.call 1 1 ∈ (callGeminiWithRetry provBadRequest 2 3).trace ∧
    (callGeminiWithRetry provBadRequest 2 3).result = .error (.exn "Bad request") := by
  decide

/-- C4 (counterexample): with targets `[A, B]`, maxRetries 3, A always
answering 503 and B succeeding on its first call, the run sleeps only
twice — 2000 ms and 4000 ms — between A's three attempts; the claimed
third 8-second backoff never happens because after A's final attempt the
loop breaks straight to B without sleeping. -/
theorem C4_counterexample :
    sleepsOf (callGeminiWithRetry provFailover 2 3).trace = [2000, 4000] ∧
    Ev.sleep 8000 ∉ (callGeminiWithRetry provFailover 2 3).trace ∧
    (callGeminiWithRetry provFailover 2 3).result = .ok "B response" := by
  decide

/-- C4 (amended): with provider target list `[A, B]` and maxRetries 3, if A
answers 503 on every call and B succeeds on its first call with nonempty
text `t`, the invoker makes exactly 3 attempts against A with backoff
delays of 2s and 4s between consecutive attempts (no delay after A's final
attempt), then exactly 1 attempt against B, and the final result is B's
text. -/
theorem C4_amended (provider : Nat → Nat → CallOutcome) (err : Nat → Option ErrBody)
    (txt : Nat → Option String) (t : String)
    (hA : ∀ a, provider 0 a = .reply 503 (err a) (txt a))
    (hB : provider 1 1 = .reply 200 none (some t)) (ht : t ≠ "") :
    callGeminiWithRetry provider 2 3 =
      ⟨.ok t, [.call 0 1, .sleep 2000, .call 0 2, .sleep 4000, .call 0 3, .call 1 1]⟩ := by
  have h503 : respOk 503 = false := by decide
  have h200 : respOk 200 = true := by decide
  have hov : ∀ e, isOverload 503 e = true := by
    intro e; simp [isOverload]
  simp [callGeminiWithRetry, countUpFrom, runModels, runAttempts,
    hA 1, hA 2, hA 3, hB, h503, h200, hov, extractText, jsOr, ht]

/-- C4 (witness): the amended statement at the concrete failover provider. -/
theorem C4_witness :
    callGeminiWithRetry provFailover 2 3 =
      ⟨.ok "B response",
       [.call 0 1, .sleep 2000, .call 0 2, .sleep 4000, .call 0 3, .call 1 1]⟩ :=
  C4_amended provFailover (fun _ => none) (fun _ => none) "B response"
    (fun _ => rfl) rfl (by decide)

/-- C8: for every input text, on any transport failure the rewrite
capability's substitute returns the input text itself unchanged in its
`rewrite` field, with an empty `removed_terms` list and the offline
marker. -/
theorem C8_rewrite_identity (α : Type) (text msg : String) :
    rewriteText (α := α) text (.error msg) = .substitute (rewriteFallback text) ∧
    jsField (rewriteFallback text) "rewrite" = some (.str text) ∧
    jsField (rewriteFallback text) "removed_terms" = some (.arr []) ∧
    hasOfflineMarker (rewriteFallback text) = true :=
  ⟨rfl, rfl, rfl, rfl⟩

/-- C9: on a non-success status the transport failure message is the parsed
error body's `detail` field when that field is present (and, per JS
truthiness, nonempty), and otherwise the generic message carrying the
status code; a `TypeError` with message "Failed to fetch" is reclassified
into the distinguished cannot-connect-to-backend network error. -/
theorem C9_transport_classification (α : Type) (status : Nat) (detail : Option String)
    (p : α) (hstatus : respOk status = false) :
    (∀ d, detail = some d → d ≠ "" →
      request (.response status detail p) = .error d) ∧
    (detail = none →
      request (.response status detail p) =
        .error ("API request failed: " ++ toString status)) ∧
    request (.fetchThrow (α := α) true "Failed to fetch") =
      .error "Cannot connect to backend server. Please check if the backend is running." := by
  refine ⟨?_, ?_, rfl⟩
  · intro d hd hne
    subst hd
    simp [request, hstatus, jsOr, hne]
  · intro hd
    subst hd
    simp [request, hstatus, jsOr]

/-- C9 (witness): the three classifications at concrete inputs. -/
theorem C9_witness :
    request (.response 404 (some "Not found") (0 : ℕ)) = .error "Not found" ∧
    request (.response 500 (none : Option String) (0 : ℕ)) =
      .error "API request failed: 500" ∧
    request (.fetchThrow (α := ℕ) true "Failed to fetch") =
      .error "Cannot connect to backend server. Please check if the backend is running." :=
  ⟨(C9_transport_classification ℕ 404 (some "Not found") 0 (by decide)).1
      "Not found" rfl (by decide),
   (C9_transport_classification ℕ 500 none 0 (by decide)).2.1 rfl,
   (C9_transport_classification ℕ 404 (some "Not found") 0 (by decide)).2.2⟩

/-- C10: when the first target's first call returns a success status with no
error field but no candidates/text part, the invoker returns the fixed
string "No response generated" as a normal successful result after exactly
one call — no raise, no retry, no failover — and the single-call
`generateText` helper behaves the same way. -/
theorem C10_no_text_success (status : Nat) (provider : Nat → Nat → CallOutcome)
    (h1 : 200 ≤ status) (h2 : status ≤ 299)
    (hp : provider 0 1 = .reply status none none) :
    callGeminiWithRetry provider 2 3 = ⟨.ok "No response generated", [.call 0 1]⟩ ∧
    generateText (.reply status none none) = .ok "No response generated" := by
  have hok : respOk status = true := by simp [respOk]; omega
  constructor
  · simp [callGeminiWithRetry, countUpFrom, runModels, runAttempts, hp, hok,
      extractText, jsOr]
  · simp [generateText, hok, extractText, jsOr]

/-- C10 (witness): the statement at a concrete provider answering 200 with
an empty candidate list. -/
theorem C10_witness :
    callGeminiWithRetry provNoCandidates 2 3 =
      ⟨.ok "No response generated", [.call 0 1]⟩ ∧
    generateText (.reply 200 none none) = .ok "No response generated" :=
  C10_no_text_success 200 provNoCandidates (by decide) (by decide) rfl

/-- The sentiment fold equals the signed difference of the token counts
matching the positive and negative lexicons. -/
theorem foldl_sentimentStep (ws : List String) (init : ℤ) :
    ws.foldl sentimentStep init =
      init + (ws.countP (fun w => positiveWords.any (fun pos => strContains w pos)) : ℤ)
           - (ws.countP (fun w => negativeWords.any (fun neg => strContains w neg)) : ℤ) := by
  induction ws generalizing init with
  | nil => simp
  | cons w ws ih =>
    simp only [List.foldl_cons, List.countP_cons, ih, sentimentStep]
    by_cases hp : positiveWords.any (fun pos => strContains w pos) <;>
      by_cases hn : negativeWords.any (fun neg => strContains w neg) <;>
        simp [hp, hn] <;> omega

/-- C6: for every input text the fallback sentiment equals the signed count
of whitespace tokens containing a positive-lexicon substring minus those
containing a negative-lexicon substring, normalized by
`max(tokenCount / 10, 1)` and clamped, and the returned score always lies
in the closed interval [-1, 1]. -/
theorem C6_sentiment_range (text : String) :
    (calculateFallbackSentiment text =
      max (-1) (min 1
        ((((jsSplitWs (jsToLower text)).countP
              (fun w => positiveWords.any (fun pos => strContains w pos)) : ℤ) -
          ((jsSplitWs (jsToLower text)).countP
              (fun w => negativeWords.any (fun neg => strContains w neg)) : ℤ) : ℚ) /
          max (((jsSplitWs (jsToLower text)).length : ℚ) / 10) 1))) ∧
    -1 ≤ calculateFallbackSentiment text ∧ calculateFallbackSentiment text ≤ 1 := by
  refine ⟨?_, ?_, ?_⟩
  · simp only [calculateFallbackSentiment, foldl_sentimentStep, zero_add]
    push_cast
    ring_nf
  · exact le_max_left _ _
  · exact max_le (by norm_num) (min_le_left _ _)

/-- C7: any text containing (case-insensitively) a keyword of the joy,
sadness, anger or anxiety sets yields the corresponding emotion tag in the
fallback emotion list, and a text containing none of the twelve keywords
yields exactly the single "Reflection" tag. -/
theorem C7_emotion_tags (text : String) :
    ((strContains (jsToLower text) "happy" || strContains (jsToLower text) "joy" ||
        strContains (jsToLower text) "good") = true →
      Emotion.mk "Joy" 0.7 ∈ analyzeFallbackEmotions text) ∧
    ((strContains (jsToLower text) "sad" || strContains (jsToLower text) "down" ||
        strContains (jsToLower text) "upset") = true →
      Emotion.mk "Sadness" 0.6 ∈ analyzeFallbackEmotions text) ∧
    ((strContains (jsToLower text) "angry" || strContains (jsToLower text) "mad" ||
        strContains (jsToLower text) "frustrated") = true →
      Emotion.mk "Anger" 0.6 ∈ analyzeFallbackEmotions text) ∧
    ((strContains (jsToLower text) "worried" || strContains (jsToLower text) "anxious" ||
        strContains (jsToLower text) "nervous") = true →
      Emotion.mk "Anxiety" 0.6 ∈ analyzeFallbackEmotions text) ∧
    ((strContains (jsToLower text) "happy" || strContains (jsToLower text) "joy" ||
        strContains (jsToLower text) "good" ||
      strContains (jsToLower text) "sad" || strContains (jsToLower text) "down" ||
        strContains (jsToLower text) "upset" ||
      strContains (jsToLower text) "angry" || strContains (jsToLower text) "mad" ||
        strContains (jsToLower text) "frustrated" ||
      strContains (jsToLower text) "worried" || strContains (jsToLower text) "anxious" ||
        strContains (jsToLower text) "nervous") = false →
      analyzeFallbackEmotions text = [⟨"Reflection", 0.5⟩]) := by
  simp only [analyzeFallbackEmotions]
  by_cases hJ : (strContains (jsToLower text) "happy" || strContains (jsToLower text) "joy" ||
      strContains (jsToLower text) "good") = true <;>
    by_cases hS : (strContains (jsToLower text) "sad" || strContains (jsToLower text) "down" ||
        strContains (jsToLower text) "upset") = true <;>
      by_cases hA : (strContains (jsToLower text) "angry" ||
          strContains (jsToLower text) "mad" ||
          strContains (jsToLower text) "frustrated") = true <;>
        by_cases hX : (strContains (jsToLower text) "worried" ||
            strContains (jsToLower text) "anxious" ||
            strContains (jsToLower text) "nervous") = true <;>
          simp_all

/-- C7 (witness): the four tags at a text containing one keyword of each
set, and the lone Reflection tag at a keyword-free text. -/
theorem C7_witness :
    Emotion.mk "Joy" 0.7 ∈ analyzeFallbackEmotions "happy sad angry worried" ∧
    Emotion.mk "Sadness" 0.6 ∈ analyzeFallbackEmotions "happy sad angry worried" ∧
    Emotion.mk "Anger" 0.6 ∈ analyzeFallbackEmotions "happy sad angry worried" ∧
    Emotion.mk "Anxiety" 0.6 ∈ analyzeFallbackEmotions "happy sad angry worried" ∧
    analyzeFallbackEmotions "The meeting went fine." = [⟨"Reflection", 0.5⟩] :=
  ⟨(C7_emotion_tags "happy sad angry worried").1 (by decide),
   (C7_emotion_tags "happy sad angry worried").2.1 (by decide),
   (C7_emotion_tags "happy sad angry worried").2.2.1 (by decide),
   (C7_emotion_tags "happy sad angry worried").2.2.2.1 (by decide),
   (C7_emotion_tags "The meeting went fine.").2.2.2.2 (by decide)⟩

/-- The average of a nonempty list of rationals lying in [1, 5] lies in
[1, 5]. -/
theorem avg_bounds (values : List ℚ) (hne : values ≠ [])
    (hlb : ∀ v ∈ values, (1 : ℚ) ≤ v) (hub : ∀ v ∈ values, v ≤ 5) :
    1 ≤ values.sum / (values.length : ℚ) ∧ values.sum / (values.length : ℚ) ≤ 5 := by
  have hlen : 0 < values.length := List.length_pos.mpr hne
  have hlenQ : (0 : ℚ) < (values.length : ℚ) := by exact_mod_cast hlen
  have hs1 : (values.length : ℚ) * 1 ≤ values.sum := by
    have h := List.card_nsmul_le_sum values 1 hlb
    simpa [nsmul_eq_mul] using h
  have hs5 : values.sum ≤ (values.length : ℚ) * 5 := by
    have h := List.sum_le_card_nsmul values 5 hub
    simpa [nsmul_eq_mul] using h
  constructor
  · rw [le_div_iff₀ hlenQ]; linarith
  · rw [div_le_iff₀ hlenQ]; linarith

/-- `Math.round(x * 100) / 100` maps [0, 100] into [0, 100]. -/
theorem round2_div_bounds (x : ℚ) (h0 : 0 ≤ x) (h100 : x ≤ 100) :
    0 ≤ (jsRound (x * 100) : ℚ) / 100 ∧ (jsRound (x * 100) : ℚ) / 100 ≤ 100 := by
  have hlb : (0 : ℤ) ≤ jsRound (x * 100) := by
    rw [jsRound]
    exact Int.le_floor.mpr (by push_cast; linarith)
  have hub : jsRound (x * 100) ≤ 10000 := by
    rw [jsRound]
    have h : ⌊x * 100 + 1 / 2⌋ < 10001 := Int.floor_lt.mpr (by push_cast; linarith)
    omega
  constructor
  · exact div_nonneg (by exact_mod_cast hlb) (by norm_num)
  · rw [div_le_iff₀ (by norm_num : (0 : ℚ) < 100)]
    have h : ((jsRound (x * 100) : ℤ) : ℚ) ≤ 10000 := by exact_mod_cast hub
    linarith

/-- C5: for every check-in submission whose remaining response values
(after removing `user_id` and `date`) are integers in 1..5, the locally
computed mood index equals `((mean - 1) / 4) × 100` rounded to two decimal
places and lies in [0, 100], and on a transport failure `submitCheckIn`
returns the substitute carrying that mood index and the offline marker. -/
theorem C5_mood_index (data : List (String × ℚ))
    (hne : checkInValues data ≠ [])
    (hall : ∀ v ∈ checkInValues data, ∃ n : ℤ, v = (n : ℚ) ∧ 1 ≤ n ∧ n ≤ 5) :
    checkInMoodIndex data = specMoodIndex (checkInValues data) ∧
    0 ≤ checkInMoodIndex data ∧ checkInMoodIndex data ≤ 100 ∧
    ∀ (α : Type) (msg : String),
      submitCheckIn (α := α) data (.error msg) = .substitute (checkInFallback data) ∧
      jsField (checkInFallback data) "mood_index" = some (.num (checkInMoodIndex data)) ∧
      hasOfflineMarker (checkInFallback data) = true := by
  have heq : checkInMoodIndex data = specMoodIndex (checkInValues data) := by
    simp only [checkInMoodIndex, specMoodIndex, round2, List.sum_eq_foldl]
  have hlb : ∀ v ∈ checkInValues data, (1 : ℚ) ≤ v := by
    intro v hv
    obtain ⟨n, rfl, h1, _⟩ := hall v hv
    exact_mod_cast h1
  have hub : ∀ v ∈ checkInValues data, v ≤ (5 : ℚ) := by
    intro v hv
    obtain ⟨n, rfl, _, h5⟩ := hall v hv
    exact_mod_cast h5
  obtain ⟨ha1, ha5⟩ := avg_bounds (checkInValues data) hne hlb hub
  have hx0 : 0 ≤ ((checkInValues data).sum / ((checkInValues data).length : ℚ) - 1) / 4 * 100 := by
    linarith
  have hx100 :
      ((checkInValues data).sum / ((checkInValues data).length : ℚ) - 1) / 4 * 100 ≤ 100 := by
    linarith
  obtain ⟨hb0, hb100⟩ := round2_div_bounds _ hx0 hx100
  refine ⟨heq, ?_, ?_, fun α msg => ⟨rfl, rfl, rfl⟩⟩
  · rw [heq]; exact hb0
  · rw [heq]; exact hb100

/-- C5 (witness): the scenario `{mood: 4, stress: 2, energy: 3}` with a
forced transport failure yields mood index 50 with the offline marker. -/
theorem C5_witness :
    checkInMoodIndex [("mood", 4), ("stress", 2), ("energy", 3)] = 50 ∧
    0 ≤ checkInMoodIndex [("mood", 4), ("stress", 2), ("energy", 3)] ∧
    checkInMoodIndex [("mood", 4), ("stress", 2), ("energy", 3)] ≤ 100 ∧
    submitCheckIn (α := Unit) [("mood", 4), ("stress", 2), ("energy", 3)]
        (.error "Cannot connect to backend server. Please check if the backend is running.") =
      .substitute (checkInFallback [("mood", 4), ("stress", 2), ("energy", 3)]) ∧
    hasOfflineMarker (checkInFallback [("mood", 4), ("stress", 2), ("energy", 3)]) = true := by
  have h := C5_mood_index [("mood", 4), ("stress", 2), ("energy", 3)]
    (by decide)
    (by
      intro v hv
      have hv' : v ∈ ([4, 2, 3] : List ℚ) := hv
      simp only [List.mem_cons, List.not_mem_nil, or_false] at hv'
      rcases hv' with rfl | rfl | rfl
      · exact ⟨4, by norm_num⟩
      · exact ⟨2, by norm_num⟩
      · exact ⟨3, by norm_num⟩)
  exact ⟨by norm_num [checkInMoodIndex, checkInValues, jsRound, List.filter, List.map,
      List.foldl],
    h.2.1, h.2.2.1,
    (h.2.2.2 Unit
      "Cannot connect to backend server. Please check if the backend is running.").1,
    (h.2.2.2 Unit
      "Cannot connect to backend server. Please check if the backend is running.").2.2⟩

theorem countCalls_cons_call (mi a : Nat) (t : List Ev) :
    countCalls (.call mi a :: t) = countCalls t + 1 := by
  simp [countCalls, List.countP_cons]

theorem countCalls_cons_sleep (ms : Nat) (t : List Ev) :
    countCalls (.sleep ms :: t) = countCalls t := by
  simp [countCalls, List.countP_cons]

theorem countCalls_append (t₁ t₂ : List Ev) :
    countCalls (t₁ ++ t₂) = countCalls t₁ + countCalls t₂ := by
  simp [countCalls, List.countP_append]

theorem sleepsOf_cons_call (mi a : Nat) (t : List Ev) :
    sleepsOf (.call mi a :: t) = sleepsOf t := by
  simp [sleepsOf, List.filterMap_cons]

theorem sleepsOf_cons_sleep (ms : Nat) (t : List Ev) :
    sleepsOf (.sleep ms :: t) = ms :: sleepsOf t := by
  simp [sleepsOf, List.filterMap_cons]

/-- A model that overloads on `n` consecutive attempts produces exactly `n`
calls. -/
theorem countCalls_overloadTrace (mi : Nat) :
    ∀ n s, countCalls (overloadTrace mi s n) = n := by
  intro n
  induction n with
  | zero => intro s; rfl
  | succ m ih =>
    intro s
    cases m with
    | zero => rfl
    | succ m' =>
      rw [overloadTrace, countCalls_cons_call, countCalls_cons_sleep, ih (s + 1)]

/-- The backoff sleeps of an overloading model's trace are
`2^attempt * 1000` ms for the non-final attempts. -/
theorem sleepsOf_overloadTrace (mi : Nat) :
    ∀ n s, sleepsOf (overloadTrace mi s (n + 1)) =
      (countUpFrom s n).map (fun a => 2 ^ a * 1000) := by
  intro n
  induction n with
  | zero => intro s; rfl
  | succ m ih =>
    intro s
    rw [overloadTrace, sleepsOf_cons_call, sleepsOf_cons_sleep, ih (s + 1)]
    rfl

/-- The per-target backoff schedule `2^s * 1000, 2^(s+1) * 1000, …` is
strictly increasing. -/
theorem chain_lt_pow_sleeps :
    ∀ m s, List.Chain' (· < ·) ((countUpFrom s m).map (fun a => 2 ^ a * 1000)) := by
  intro m
  induction m with
  | zero => intro s; simp [countUpFrom]
  | succ k ih =>
    intro s
    cases k with
    | zero => simp [countUpFrom]
    | succ k' =>
      simp only [countUpFrom, List.map_cons]
      rw [List.chain'_cons]
      refine ⟨?_, ?_⟩
      · have hpow : (2 : ℕ) ^ s < 2 ^ (s + 1) :=
          Nat.pow_lt_pow_right (by norm_num) (Nat.lt_succ_self s)
        exact (Nat.mul_lt_mul_right (by norm_num : 0 < 1000)).mpr hpow
      · have h := ih (s + 1)
        simpa [countUpFrom] using h

/-- Inner attempt loop under an always-overloading provider: every listed
attempt hits the overload branch, so the loop stores the reply's error
body, sleeps `2^attempt * 1000` ms before each retry, and ends exhausted
at the final attempt (where `attempt < maxRetries` fails). -/
theorem runAttempts_all_overload
    (provider : Nat → Nat → CallOutcome) (R mi : Nat)
    (status : Nat → Nat) (err : Nat → ErrBody) (txt : Nat → Option String)
    (hp : ∀ a, provider mi a = .reply (status a) (some (err a)) (txt a))
    (hov : ∀ a, isOverload (status a) (some (err a)) = true) :
    ∀ n, 1 ≤ n → ∀ s, s + n = R + 1 → ∀ le,
      runAttempts provider R mi (countUpFrom s n) le =
        ⟨.exhausted, some (.body (err (s + n - 1))), overloadTrace mi s n⟩ := by
  intro n
  induction n with
  | zero => intro h; omega
  | succ m ih =>
    intro _ s hs le
    have hfail : (respOk (status s) && (some (err s)).isNone) = false := by simp
    cases m with
    | zero =>
      have hnlt : ¬ s < R := by omega
      simp [countUpFrom, runAttempts, hp s, hfail, hov s, hnlt, overloadTrace]
    | succ m' =>
      have hlt : s < R := by omega
      have hcons : countUpFrom s (m' + 1 + 1) = s :: countUpFrom (s + 1) (m' + 1) := rfl
      rw [hcons, runAttempts, hp s]
      simp only [hfail, Bool.false_eq_true, if_false, hov s, if_true, hlt,
        Option.map_some]
      rw [ih (by omega) (s + 1) (by omega) (Option.map LastErr.body (some (err s)))]
      have hidx : s + 1 + (m' + 1) - 1 = s + (m' + 1 + 1) - 1 := by omega
      simp [overloadTrace, hidx]

/-- Outer target loop under an always-overloading provider: each listed
target exhausts its retries, `lastError` ends as the error body of the very
last call, and the final `throw lastError` raises it. -/
theorem runModels_all_overload
    (provider : Nat → Nat → CallOutcome) (R : Nat)
    (status : Nat → Nat → Nat) (err : Nat → Nat → ErrBody)
    (txt : Nat → Nat → Option String)
    (hp : ∀ mi a, provider mi a = .reply (status mi a) (some (err mi a)) (txt mi a))
    (hov : ∀ mi a, isOverload (status mi a) (some (err mi a)) = true)
    (hR : 1 ≤ R) :
    ∀ k, 1 ≤ k → ∀ s le,
      runModels provider R (countUpFrom s k) le =
        ⟨.error (.body (err (s + k - 1) R)),
         ((countUpFrom s k).map (fun mi => overloadTrace mi 1 R)).flatten⟩ := by
  intro k
  induction k with
  | zero => intro h; omega
  | succ j ih =>
    intro _ s le
    have hinner := runAttempts_all_overload provider R s (status s) (err s) (txt s)
      (fun a => hp s a) (fun a => hov s a) R hR 1 (by omega) le
    have hR1 : 1 + R - 1 = R := by omega
    rw [hR1] at hinner
    cases j with
    | zero =>
      simp [countUpFrom, runModels, hinner]
    | succ j' =>
      have hcons : countUpFrom s (j' + 1 + 1) = s :: countUpFrom (s + 1) (j' + 1) := rfl
      rw [hcons, runModels, hinner]
      dsimp only
      rw [ih (by omega) (s + 1) (some (.body (err s R)))]
      have hidx : s + 1 + (j' + 1) - 1 = s + (j' + 1 + 1) - 1 := by omega
      simp [hidx, countUpFrom]

/-- The full trace of `k` overloading targets holds `k * R` calls. -/
theorem countCalls_overload_join (R : Nat) :
    ∀ k s, countCalls (((countUpFrom s k).map (fun mi => overloadTrace mi 1 R)).flatten) =
      k * R := by
  intro k
  induction k with
  | zero => intro s; simp [countUpFrom, countCalls]
  | succ j ih =>
    intro s
    simp only [countUpFrom, List.map_cons, List.flatten_cons]
    rw [countCalls_append, countCalls_overloadTrace, ih (s + 1)]
    ring

/-- C3: with `N ≥ 1` targets and `maxRetries = R ≥ 1`, a provider that
reports the overload condition (with an error body) on every call causes
exactly `N × R` attempts, the invocation then fails terminally by raising
the last observed error body, the run's trace is the concatenation of the
per-target overload traces, and within each target the backoff delays
between consecutive attempts are `2^attempt * 1000` ms for
`attempt = 1, …, R-1`, a strictly increasing schedule. -/
theorem C3_overload_schedule (N R : Nat) (provider : Nat → Nat → CallOutcome)
    (status : Nat → Nat → Nat) (err : Nat → Nat → ErrBody)
    (txt : Nat → Nat → Option String)
    (hN : 1 ≤ N) (hR : 1 ≤ R)
    (hp : ∀ mi a, provider mi a = .reply (status mi a) (some (err mi a)) (txt mi a))
    (hov : ∀ mi a, isOverload (status mi a) (some (err mi a)) = true) :
    (callGeminiWithRetry provider N R).result = .error (.body (err (N - 1) R)) ∧
    countCalls (callGeminiWithRetry provider N R).trace = N * R ∧
    (callGeminiWithRetry provider N R).trace =
      ((countUpFrom 0 N).map (fun mi => overloadTrace mi 1 R)).flatten ∧
    (∀ mi, sleepsOf (overloadTrace mi 1 R) =
      (countUpFrom 1 (R - 1)).map (fun a => 2 ^ a * 1000)) ∧
    (∀ mi, List.Chain' (· < ·) (sleepsOf (overloadTrace mi 1 R))) := by
  have hrun := runModels_all_overload provider R status err txt hp hov hR N hN 0 none
  have h0N : 0 + N - 1 = N - 1 := by omega
  rw [h0N] at hrun
  have hmain : callGeminiWithRetry provider N R =
      ⟨.error (.body (err (N - 1) R)),
       ((countUpFrom 0 N).map (fun mi => overloadTrace mi 1 R)).flatten⟩ := hrun
  have hRsucc : R - 1 + 1 = R := by omega
  refine ⟨by rw [hmain], ?_, by rw [hmain], ?_, ?_⟩
  · rw [hmain]
    exact countCalls_overload_join R N 0
  · intro mi
    have h := sleepsOf_overloadTrace mi (R - 1) 1
    rw [hRsucc] at h
    exact h
  · intro mi
    have h := sleepsOf_overloadTrace mi (R - 1) 1
    rw [hRsucc] at h
    rw [h]
    exact chain_lt_pow_sleeps (R - 1) 1

/-- C3 (witness): the schedule at the concrete always-overloaded provider
with two targets and three retries per target. -/
theorem C3_witness :
    (callGeminiWithRetry provOverloaded 2 3).result =
      .error (.body ⟨some "The model is overloaded"⟩) ∧
    countCalls (callGeminiWithRetry provOverloaded 2 3).trace = 2 * 3 ∧
    (callGeminiWithRetry provOverloaded 2 3).trace =
      ((countUpFrom 0 2).map (fun mi => overloadTrace mi 1 3)).flatten ∧
    sleepsOf (overloadTrace 0 1 3) =
      (countUpFrom 1 2).map (fun a => 2 ^ a * 1000) ∧
    List.Chain' (· < ·) (sleepsOf (overloadTrace 0 1 3)) := by
  have h := C3_overload_schedule 2 3 provOverloaded
    (fun _ _ => 503) (fun _ _ => ⟨some "The model is overloaded"⟩) (fun _ _ => none)
    (by norm_num) (by norm_num) (fun _ _ => rfl)
    (fun _ _ => by
      show isOverload 503 (some ⟨some "The model is overloaded"⟩) = true
      decide)
  exact ⟨h.1, h.2.1, h.2.2.1, h.2.2.2.1 0, h.2.2.2.2 0⟩

end RaAI
